import Mathlib

/-!
Verification of the PetMate `VetLocator` engine (`src/vet_locator.py`)
against its natural-language specification.

The engine data (coordinates, ratings, radii, distances) is modelled over `ℚ`.
The Haversine distance computation (`calculate_distance`) uses transcendental
functions, so it is modelled separately over `ℝ`; the search scan
(`get_nearby_hospitals`), which in the source invokes
`self.calculate_distance`, is modelled generically in the distance function
`dist`, so every theorem about the scan holds in particular for the engine
instantiated with the Haversine distance.
-/

namespace Petmate

/-- A Python float value as it can appear in a caller-supplied coordinate:
a finite number, or one of the non-finite floats. -/
inductive PyFloat where
  | finite (q : ℚ)
  | nan
  | inf
  | ninf
deriving DecidableEq, Repr

/-- The Python value passed as `user_location`: either a tuple of float
components or some other object (list, string, ...).  The source validates it
with `isinstance(user_location, tuple) and len(user_location) == 2`. -/
inductive PyLoc where
  | tuple (components : List PyFloat)
  | other
deriving DecidableEq, Repr

/-- A hospital record.  The source stores records as dictionaries; the fields
below are the ones the engine reads.  `is_emergency` models
`hospital.get("is_emergency", False)` (absent field ≡ `false`) and
`specialties` models `hospital.get("specialties", [])` (absent field ≡ `[]`). -/
structure Hospital where
  name : String
  latitude : ℚ
  longitude : ℚ
  rating : ℚ
  is_emergency : Bool
  specialties : List String
deriving DecidableEq, Repr

/-- A hospital together with the computed `distance` field, as produced by
`hospital_with_distance = hospital.copy(); hospital_with_distance["distance"] = distance`. -/
structure AnnHospital where
  hospital : Hospital
  distance : ℚ
deriving DecidableEq, Repr

/-- The validation failures of `get_nearby_hospitals`, distinguished by the
`ValueError` message the source raises:
`invalidLocation` ≙ "Location must be a tuple of (latitude, longitude)",
`invalidRadius` ≙ "Search radius must be between 1 and 100 km",
`invalidRating` ≙ "Rating must be between 1.0 and 5.0". -/
inductive VetError where
  | invalidLocation
  | invalidRadius
  | invalidRating
deriving DecidableEq, Repr

/-- The skip decision of the pet-type block of the scan loop
(`src/vet_locator.py` lines 183-193): with `pet_type` set,

```
if pet_type == "dog" and "canine" not in pet_specialties:
    if "general" not in pet_specialties: continue
elif pet_type == "cat" and "feline" not in pet_specialties:
    if "general" not in pet_specialties: continue
```

where `pet_specialties = [s.lower() for s in specialties]`. -/
def petSkip (pet_type : Option String) (h : Hospital) : Bool :=
  match pet_type with
  | none => false
  | some t =>
    let pet_specialties := h.specialties.map String.toLower
    if t = "dog" && !pet_specialties.contains "canine" then
      !pet_specialties.contains "general"
    else if t = "cat" && !pet_specialties.contains "feline" then
      !pet_specialties.contains "general"
    else
      false

/-- One iteration of the scan loop of `get_nearby_hospitals`
(`src/vet_locator.py` lines 161-198): compute the distance, skip when it
exceeds the radius, when the rating is below the minimum, when the emergency
filter is set and mismatches, or when the pet-type block skips; otherwise emit
the record annotated with its distance. -/
def scanHospital (dist : PyFloat × PyFloat → ℚ × ℚ → ℚ)
    (loc : PyFloat × PyFloat) (search_radius min_rating : ℚ)
    (is_emergency : Option Bool) (pet_type : Option String)
    (h : Hospital) : Option AnnHospital :=
  let distance := dist loc (h.latitude, h.longitude)
  if distance > search_radius then none
  else if h.rating < min_rating then none
  else if (match is_emergency with
           | some b => h.is_emergency != b
           | none => false) then none
  else if petSkip pet_type h then none
  else some ⟨h, distance⟩

/-- `get_nearby_hospitals` (`src/vet_locator.py` lines 115-200).  Validates the
location (`isinstance(user_location, tuple) and len(user_location) == 2`, i.e.
the argument matches `PyLoc.tuple [a, b]`), substitutes the defaults 50 and 4.0
for omitted (`None`) radius and rating, validates
`1 <= search_radius <= 100` then `1.0 <= min_rating <= 5.0`, and finally
scans the hospital list in order. -/
def get_nearby_hospitals (dist : PyFloat × PyFloat → ℚ × ℚ → ℚ)
    (hospitals : List Hospital) (user_location : PyLoc)
    (search_radius min_rating : Option ℚ)
    (is_emergency : Option Bool) (pet_type : Option String) :
    Except VetError (List AnnHospital) :=
  match user_location with
  | .tuple [a, b] =>
    let r := search_radius.getD 50
    let m := min_rating.getD 4
    if !(decide (1 ≤ r) && decide (r ≤ 100)) then .error .invalidRadius
    else if !(decide (1 ≤ m) && decide (m ≤ 5)) then .error .invalidRating
    else .ok (hospitals.filterMap (scanHospital dist (a, b) r m is_emergency pet_type))
  | _ => .error .invalidLocation

/-- `sort_by_distance` (`src/vet_locator.py` lines 202-212):
`sorted(hospitals, key=lambda h: h.get("distance", float("inf")))`.
The Python `sorted` builtin is a stable ascending sort by the key; `mergeSort` with the
non-strict key comparison is exactly that.  (The infinity fallback never
fires for `AnnHospital` values, which always carry the distance field.) -/
def sort_by_distance (hospitals : List AnnHospital) : List AnnHospital :=
  hospitals.mergeSort (fun x y => decide (x.distance ≤ y.distance))

/-- `sort_by_rating` (`src/vet_locator.py` lines 214-224):
`sorted(hospitals, key=lambda h: h.get("rating", 0), reverse=True)`.
The Python `sorted` builtin with `reverse=True` is a stable descending sort by the key
(ties keep input order), i.e. a stable sort by the reversed non-strict
comparison. -/
def sort_by_rating (hospitals : List AnnHospital) : List AnnHospital :=
  hospitals.mergeSort (fun x y => decide (y.hospital.rating ≤ x.hospital.rating))

/-- Python list slicing `lst[:k]` for an `int` bound `k`: a non-negative `k`
takes the first `k` elements; a negative `k` stops `|k|` elements before the
end (empty when `|k| ≥ len(lst)`). -/
def pyTake (l : List α) (k : ℤ) : List α :=
  l.take (if k < 0 then ((l.length : ℤ) + k).toNat else k.toNat)

/-- `get_recommendations` (`src/vet_locator.py` lines 239-274): search with the
given location, radius and rating (no emergency or pet-type filter is passed),
sort by rating when `sort_by == "rating"` and by distance otherwise, and return
`sorted_hospitals[:max_results]` (default `max_results` is 5). -/
def get_recommendations (dist : PyFloat × PyFloat → ℚ × ℚ → ℚ)
    (hospitals : List Hospital) (user_location : PyLoc)
    (search_radius min_rating : Option ℚ)
    (max_results : ℤ := 5) (sort_by : String := "distance") :
    Except VetError (List AnnHospital) :=
  match get_nearby_hospitals dist hospitals user_location search_radius min_rating none none with
  | .error e => .error e
  | .ok nearby =>
    .ok (pyTake (if sort_by = "rating" then sort_by_rating nearby else sort_by_distance nearby)
          max_results)

/-! ### Construction and data loading (`__init__` / `_load_hospitals`) -/

/-- The state of the hospital database source named by `hospital_db_path`:
the path may not exist, may exist but not be readable, or may be readable
JSON whose optional top-level `"hospitals"` field holds the record list
(`data.get("hospitals", [])`). -/
inductive DataSource where
  | absent
  | presentUnreadable
  | present (hospitals : Option (List Hospital))
deriving DecidableEq

/-- The exceptions construction can raise: `fileNotFoundError` is the
`FileNotFoundError` raised explicitly when `Path(...).exists()` is false
(named `DataSourceNotFound` in the spec); `permissionError` is the
`PermissionError` that the Python builtin `open()` raises for a path that exists but is not
readable. -/
inductive LoadError where
  | fileNotFoundError
  | permissionError
deriving DecidableEq

/-- `_load_hospitals` (`src/vet_locator.py` lines 50-70): raise
`FileNotFoundError` when the path does not exist; otherwise `open` the file —
which, per Python semantics, raises `PermissionError` for an existing but
unreadable path — and return `data.get("hospitals", [])`. -/
def load_hospitals : DataSource → Except LoadError (List Hospital)
  | .absent => .error .fileNotFoundError
  | .presentUnreadable => .error .permissionError
  | .present hs => .ok (hs.getD [])

/-- The engine instance: holds the loaded hospital collection in memory. -/
structure VetLocator where
  hospitals : List Hospital
deriving DecidableEq

/-- `VetLocator.__init__` (`src/vet_locator.py` lines 40-48): eagerly runs
`self.hospitals = self._load_hospitals()`, so construction succeeds exactly
when loading does and the instance holds the loaded collection. -/
def mkVetLocator (src : DataSource) : Except LoadError VetLocator :=
  match load_hospitals src with
  | .error e => .error e
  | .ok hs => .ok ⟨hs⟩

/-! ### The Haversine distance (`calculate_distance`), over `ℝ` -/

/-- `math.radians`: degrees to radians. -/
noncomputable def radians (x : ℝ) : ℝ := x * (Real.pi / 180)

/-- The Python `round` builtin to an integer: round half to even. -/
noncomputable def pyRound (x : ℝ) : ℤ :=
  if Int.fract x = 1 / 2 then (if Even ⌊x⌋ then ⌊x⌋ else ⌊x⌋ + 1) else round x

/-- `round(x, 2)`: round to 2 decimal places. -/
noncomputable def round2 (x : ℝ) : ℝ := (pyRound (x * 100) : ℝ) / 100

/-- `EARTH_RADIUS_KM` (`src/vet_locator.py` line 35). -/
def EARTH_RADIUS_KM : ℝ := 6371

/-- `calculate_distance` (`src/vet_locator.py` lines 72-113): the Haversine
formula

```
a = sin²(Δlat/2) + cos(lat1)·cos(lat2)·sin²(Δlon/2)
c = 2·asin(√a)
distance = round(EARTH_RADIUS_KM · c, 2)
```

modelled over `ℝ` (the source computes with floats). -/
noncomputable def calculate_distance (location1 location2 : ℝ × ℝ) : ℝ :=
  let lat1 := location1.1
  let lon1 := location1.2
  let lat2 := location2.1
  let lon2 := location2.2
  let lat1_rad := radians lat1
  let lat2_rad := radians lat2
  let delta_lat := radians (lat2 - lat1)
  let delta_lon := radians (lon2 - lon1)
  let a := Real.sin (delta_lat / 2) ^ 2 +
    Real.cos lat1_rad * Real.cos lat2_rad * Real.sin (delta_lon / 2) ^ 2
  let c := 2 * Real.arcsin (Real.sqrt a)
  round2 (EARTH_RADIUS_KM * c)

/-! ### Helper lemmas about `filterMap` scans -/

theorem filterMap_eq_filter_filterMap {α β : Type _} (f g : α → Option β) (P : β → Bool)
    (hfg : ∀ x, f x = (g x).filter P) (l : List α) :
    l.filterMap f = (l.filterMap g).filter P := by
  induction l with
  | nil => simp
  | cons a t ih =>
    have ha := hfg a
    rw [List.filterMap_cons, List.filterMap_cons]
    cases hga : g a with
    | none =>
      rw [hga, Option.filter_none] at ha
      rw [ha, ih]
    | some y =>
      rw [hga, Option.filter_some] at ha
      by_cases hy : P y = true
      · rw [if_pos hy] at ha
        rw [ha, List.filter_cons, if_pos hy, ih]
      · rw [if_neg hy] at ha
        rw [ha, List.filter_cons, if_neg hy]
        exact ih

theorem filterMap_sublist_of_imp {α β : Type _} (f g : α → Option β)
    (h : ∀ x y, f x = some y → g x = some y) (l : List α) :
    (l.filterMap f).Sublist (l.filterMap g) := by
  induction l with
  | nil => simp
  | cons a t ih =>
    rw [List.filterMap_cons, List.filterMap_cons]
    cases hfa : f a with
    | none =>
      cases hga : g a with
      | none => exact ih
      | some y => exact ih.trans (List.sublist_cons_self y _)
    | some y =>
      rw [h a y hfa]
      exact ih.cons₂ y

/-! ### The pet-type skip decision, unfolded -/

theorem petSkip_none (h : Hospital) : petSkip none h = false := rfl

theorem petSkip_dog (h : Hospital) :
    petSkip (some "dog") h =
      !((h.specialties.map String.toLower).contains "canine" ||
        (h.specialties.map String.toLower).contains "general") := by
  simp only [petSkip]
  cases hc : (h.specialties.map String.toLower).contains "canine" <;>
    cases hg : (h.specialties.map String.toLower).contains "general" <;>
      simp [hc, hg]

theorem petSkip_cat (h : Hospital) :
    petSkip (some "cat") h =
      !((h.specialties.map String.toLower).contains "feline" ||
        (h.specialties.map String.toLower).contains "general") := by
  simp only [petSkip]
  cases hc : (h.specialties.map String.toLower).contains "feline" <;>
    cases hg : (h.specialties.map String.toLower).contains "general" <;>
      simp [hc, hg]

theorem petSkip_other (t : String) (h : Hospital) (hd : t ≠ "dog") (hc : t ≠ "cat") :
    petSkip (some t) h = false := by
  simp [petSkip, hd, hc]

theorem scanHospital_pet_other (dist : PyFloat × PyFloat → ℚ × ℚ → ℚ)
    (loc : PyFloat × PyFloat) (r m : ℚ) (em : Option Bool) (t : String)
    (hd : t ≠ "dog") (hc : t ≠ "cat") (h : Hospital) :
    scanHospital dist loc r m em (some t) h = scanHospital dist loc r m em none h := by
  simp only [scanHospital, petSkip_other t h hd hc, petSkip_none]

/-! ### Factorizations of one scan step through the optional filters -/

theorem scanHospital_emergency (dist : PyFloat × PyFloat → ℚ × ℚ → ℚ)
    (loc : PyFloat × PyFloat) (r m : ℚ) (b : Bool) (pt : Option String) (h : Hospital) :
    scanHospital dist loc r m (some b) pt h =
      (scanHospital dist loc r m none pt h).filter
        (fun ann => ann.hospital.is_emergency == b) := by
  simp only [scanHospital]
  by_cases h1 : dist loc (h.latitude, h.longitude) > r
  · simp only [if_pos h1, Option.filter_none]
  by_cases h2 : h.rating < m
  · simp only [if_neg h1, if_pos h2, Option.filter_none]
  simp only [if_neg h1, if_neg h2]
  cases heb : h.is_emergency == b with
  | true =>
    have hbne : (h.is_emergency != b) = false := by simp [bne, heb]
    by_cases h4 : petSkip pt h = true
    · simp [hbne, h4]
    · simp [hbne, h4, Option.filter_some, heb]
  | false =>
    have hbne : (h.is_emergency != b) = true := by
      simp only [bne, heb, Bool.not_false]
    by_cases h4 : petSkip pt h = true
    · simp [hbne, h4]
    · simp [hbne, h4, Option.filter_some, heb]

theorem scanHospital_pet_dog (dist : PyFloat × PyFloat → ℚ × ℚ → ℚ)
    (loc : PyFloat × PyFloat) (r m : ℚ) (em : Option Bool) (h : Hospital) :
    scanHospital dist loc r m em (some "dog") h =
      (scanHospital dist loc r m em none h).filter
        (fun ann => (ann.hospital.specialties.map String.toLower).contains "canine" ||
          (ann.hospital.specialties.map String.toLower).contains "general") := by
  simp only [scanHospital]
  by_cases h1 : dist loc (h.latitude, h.longitude) > r
  · simp only [if_pos h1, Option.filter_none]
  by_cases h2 : h.rating < m
  · simp only [if_neg h1, if_pos h2, Option.filter_none]
  by_cases h3 : (match em with | some b => h.is_emergency != b | none => false) = true
  · simp only [if_neg h1, if_neg h2, if_pos h3, Option.filter_none]
  simp only [if_neg h1, if_neg h2, if_neg h3, petSkip_dog, petSkip_none]
  cases hc : (h.specialties.map String.toLower).contains "canine" <;>
    cases hg : (h.specialties.map String.toLower).contains "general" <;>
      (simp only [if_neg Bool.false_ne_true, Option.filter_some]
       dsimp only
       rw [hc, hg]
       simp)

theorem scanHospital_pet_cat (dist : PyFloat × PyFloat → ℚ × ℚ → ℚ)
    (loc : PyFloat × PyFloat) (r m : ℚ) (em : Option Bool) (h : Hospital) :
    scanHospital dist loc r m em (some "cat") h =
      (scanHospital dist loc r m em none h).filter
        (fun ann => (ann.hospital.specialties.map String.toLower).contains "feline" ||
          (ann.hospital.specialties.map String.toLower).contains "general") := by
  simp only [scanHospital]
  by_cases h1 : dist loc (h.latitude, h.longitude) > r
  · simp only [if_pos h1, Option.filter_none]
  by_cases h2 : h.rating < m
  · simp only [if_neg h1, if_pos h2, Option.filter_none]
  by_cases h3 : (match em with | some b => h.is_emergency != b | none => false) = true
  · simp only [if_neg h1, if_neg h2, if_pos h3, Option.filter_none]
  simp only [if_neg h1, if_neg h2, if_neg h3, petSkip_cat, petSkip_none]
  cases hc : (h.specialties.map String.toLower).contains "feline" <;>
    cases hg : (h.specialties.map String.toLower).contains "general" <;>
      (simp only [if_neg Bool.false_ne_true, Option.filter_some]
       dsimp only
       rw [hc, hg]
       simp)

theorem scanHospital_radius_mono (dist : PyFloat × PyFloat → ℚ × ℚ → ℚ)
    (loc : PyFloat × PyFloat) (r1 r2 m : ℚ) (hr : r1 ≤ r2)
    (em : Option Bool) (pt : Option String) (h : Hospital) (ann : AnnHospital)
    (hs : scanHospital dist loc r1 m em pt h = some ann) :
    scanHospital dist loc r2 m em pt h = some ann := by
  simp only [scanHospital] at hs ⊢
  by_cases h1 : dist loc (h.latitude, h.longitude) > r1
  · simp [h1] at hs
  · have h1' : ¬ dist loc (h.latitude, h.longitude) > r2 := by
      push_neg at h1 ⊢
      exact h1.trans hr
    rw [if_neg h1] at hs
    rw [if_neg h1']
    exact hs

/-! ### Success form of the search -/

theorem get_nearby_hospitals_ok (dist : PyFloat × PyFloat → ℚ × ℚ → ℚ)
    (hospitals : List Hospital) (a b : PyFloat) (r? m? : Option ℚ)
    (em : Option Bool) (pt : Option String)
    (hr1 : 1 ≤ r?.getD 50) (hr2 : r?.getD 50 ≤ 100)
    (hm1 : 1 ≤ m?.getD 4) (hm2 : m?.getD 4 ≤ 5) :
    get_nearby_hospitals dist hospitals (.tuple [a, b]) r? m? em pt =
      .ok (hospitals.filterMap
        (scanHospital dist (a, b) (r?.getD 50) (m?.getD 4) em pt)) := by
  simp [get_nearby_hospitals, hr1, hr2, hm1, hm2]

/-- The Boolean range tests of the source, restated as propositional `if`s. -/
theorem get_nearby_hospitals_validation (dist : PyFloat × PyFloat → ℚ × ℚ → ℚ)
    (hospitals : List Hospital) (a b : PyFloat) (r? m? : Option ℚ)
    (em : Option Bool) (pt : Option String) :
    get_nearby_hospitals dist hospitals (.tuple [a, b]) r? m? em pt =
      (if ¬(1 ≤ r?.getD 50 ∧ r?.getD 50 ≤ 100) then .error .invalidRadius
       else if ¬(1 ≤ m?.getD 4 ∧ m?.getD 4 ≤ 5) then .error .invalidRating
       else .ok (hospitals.filterMap
         (scanHospital dist (a, b) (r?.getD 50) (m?.getD 4) em pt))) := by
  simp only [get_nearby_hospitals]
  by_cases hr : 1 ≤ r?.getD 50 ∧ r?.getD 50 ≤ 100
  · rw [if_neg (not_not_intro hr), if_neg (by simp [hr.1, hr.2])]
    by_cases hm : 1 ≤ m?.getD 4 ∧ m?.getD 4 ≤ 5
    · rw [if_neg (not_not_intro hm), if_neg (by simp [hm.1, hm.2])]
    · rw [if_pos hm]
      rcases not_and_or.mp hm with h | h <;> rw [if_pos (by simp [h])]
  · rw [if_pos hr]
    rcases not_and_or.mp hr with h | h <;> rw [if_pos (by simp [h])]

/-! ### Claim theorems -/

/-- **C2 (amended).** The search fails with `InvalidLocation`, before scanning
any record (the equivalence holds for every hospital list), exactly when the
supplied location is not a two-component tuple; the component values are not
inspected, so non-finite components (NaN or infinity) are not rejected. -/
theorem search_invalid_location_iff
    (dist : PyFloat × PyFloat → ℚ × ℚ → ℚ) (hospitals : List Hospital)
    (loc : PyLoc) (r? m? : Option ℚ) (em : Option Bool) (pt : Option String) :
    get_nearby_hospitals dist hospitals loc r? m? em pt = .error .invalidLocation ↔
      ∀ a b, loc ≠ .tuple [a, b] := by
  cases loc with
  | other => simp [get_nearby_hospitals]
  | tuple comps =>
    match comps with
    | [] => simp [get_nearby_hospitals]
    | [a] => simp [get_nearby_hospitals]
    | [a, b] =>
      constructor
      · intro h
        exfalso
        rw [get_nearby_hospitals_validation] at h
        split_ifs at h <;> simp at h
      · intro h
        exact absurd rfl (h a b)
    | a :: b :: c :: rest => simp [get_nearby_hospitals]

/-- **C2 counterexample.** The coordinate `(0, nan)` has a non-finite
component, yet the search accepts it and returns a successful (empty) result
instead of failing with `InvalidLocation`. -/
theorem search_nan_coordinate_not_rejected :
    get_nearby_hospitals (fun _ _ => 0) [] (.tuple [.finite 0, .nan])
        none none none none = .ok [] ∧
    (Except.ok [] : Except VetError (List AnnHospital)) ≠ .error .invalidLocation :=
  ⟨rfl, by simp⟩

/-- **C3 (amended).** For a well-formed location, the search fails with
`InvalidRadius` exactly when the effective radius (the explicit value, or the
default 50 when omitted) lies outside `[1, 100]`, and with `InvalidRating`
exactly when the effective radius is in range and the effective minimum rating
(the explicit value, or the default 4.0 when omitted) lies outside
`[1.0, 5.0]`: the radius is validated first, so a simultaneously invalid
radius masks the rating error.  Both checks happen before scanning (the
equivalences hold for every hospital list), and a default is never substituted
for an out-of-range explicit value. -/
theorem search_radius_rating_validation
    (dist : PyFloat × PyFloat → ℚ × ℚ → ℚ) (hospitals : List Hospital)
    (a b : PyFloat) (r? m? : Option ℚ) (em : Option Bool) (pt : Option String) :
    (get_nearby_hospitals dist hospitals (.tuple [a, b]) r? m? em pt =
        .error .invalidRadius ↔ ¬(1 ≤ r?.getD 50 ∧ r?.getD 50 ≤ 100)) ∧
    (get_nearby_hospitals dist hospitals (.tuple [a, b]) r? m? em pt =
        .error .invalidRating ↔
      ((1 ≤ r?.getD 50 ∧ r?.getD 50 ≤ 100) ∧ ¬(1 ≤ m?.getD 4 ∧ m?.getD 4 ≤ 5))) := by
  rw [get_nearby_hospitals_validation]
  constructor
  · split_ifs with h1 h2 <;> simp_all
  · split_ifs with h1 h2 <;> simp_all

/-- **C3 counterexample.** With radius 0 and minRating 0.5 both explicitly
supplied and out of range, the search fails with the radius error and not the
rating error, although the minRating 0.5 lies outside `[1.0, 5.0]` — refuting
"`InvalidRating` exactly when an explicitly supplied minRating lies outside
`[1.0, 5.0]`". -/
theorem search_both_invalid_raises_radius_error :
    ¬((1 : ℚ) ≤ 1 / 2 ∧ (1 / 2 : ℚ) ≤ 5) ∧
    get_nearby_hospitals (fun _ _ => 0) [] (.tuple [.finite 0, .finite 0])
        (some 0) (some (1 / 2)) none none = .error .invalidRadius ∧
    get_nearby_hospitals (fun _ _ => 0) [] (.tuple [.finite 0, .finite 0])
        (some 0) (some (1 / 2)) none none ≠ .error .invalidRating :=
  ⟨by norm_num, rfl, fun h => by
    have h0 : get_nearby_hospitals (fun _ _ => 0) [] (.tuple [.finite 0, .finite 0])
        (some 0) (some (1 / 2)) none none = .error .invalidRadius := rfl
    rw [h0] at h
    simp at h⟩

/-- **C10.** For every `pet_type` value other than `"dog"` or `"cat"` (for
example `"bird"`), the search applies no specialty filtering at all: it
returns exactly the same result as the identical call with `pet_type`
omitted, regardless of the specialties of any record. -/
theorem search_unknown_pet_type_eq_no_filter
    (dist : PyFloat × PyFloat → ℚ × ℚ → ℚ) (hospitals : List Hospital)
    (loc : PyLoc) (r? m? : Option ℚ) (em : Option Bool) (t : String)
    (hd : t ≠ "dog") (hc : t ≠ "cat") :
    get_nearby_hospitals dist hospitals loc r? m? em (some t) =
      get_nearby_hospitals dist hospitals loc r? m? em none := by
  cases loc with
  | other => rfl
  | tuple comps =>
    match comps with
    | [] => rfl
    | [a] => rfl
    | [a, b] =>
      have hfun : scanHospital dist (a, b) (r?.getD 50) (m?.getD 4) em (some t)
          = scanHospital dist (a, b) (r?.getD 50) (m?.getD 4) em none :=
        funext (fun h => scanHospital_pet_other dist (a, b) _ _ em t hd hc h)
      simp only [get_nearby_hospitals, hfun]
    | a :: b :: c :: rest => rfl

/-- Witness for C10: a `"bird"` query coincides with the unfiltered query. -/
theorem search_unknown_pet_type_eq_no_filter_witness :
    ("bird" : String) ≠ "dog" ∧ ("bird" : String) ≠ "cat" ∧
      get_nearby_hospitals (fun _ _ => 0) [] (.tuple [.finite 0, .finite 0])
          none none none (some "bird") =
        get_nearby_hospitals (fun _ _ => 0) [] (.tuple [.finite 0, .finite 0])
          none none none none :=
  ⟨by decide, by decide,
    search_unknown_pet_type_eq_no_filter (fun _ _ => 0) [] (.tuple [.finite 0, .finite 0])
      none none none "bird" (by decide) (by decide)⟩

/-- **C9.** When `pet_type` is `"dog"` or `"cat"`, the search keeps, among the
records passing the distance, rating and emergency predicates (the result of
the same search without a pet-type filter), exactly those records whose
case-folded specialties contain the pet-specific tag (`canine` for dogs,
`feline` for cats) or `general`, and excludes the rest. -/
theorem search_pet_type_specialty_filter
    (dist : PyFloat × PyFloat → ℚ × ℚ → ℚ) (hospitals : List Hospital)
    (a b : PyFloat) (r? m? : Option ℚ) (em : Option Bool)
    (hr1 : 1 ≤ r?.getD 50) (hr2 : r?.getD 50 ≤ 100)
    (hm1 : 1 ≤ m?.getD 4) (hm2 : m?.getD 4 ≤ 5) :
    ∃ base,
      get_nearby_hospitals dist hospitals (.tuple [a, b]) r? m? em none = .ok base ∧
      get_nearby_hospitals dist hospitals (.tuple [a, b]) r? m? em (some "dog") =
        .ok (base.filter (fun ann =>
          (ann.hospital.specialties.map String.toLower).contains "canine" ||
          (ann.hospital.specialties.map String.toLower).contains "general")) ∧
      get_nearby_hospitals dist hospitals (.tuple [a, b]) r? m? em (some "cat") =
        .ok (base.filter (fun ann =>
          (ann.hospital.specialties.map String.toLower).contains "feline" ||
          (ann.hospital.specialties.map String.toLower).contains "general")) := by
  refine ⟨_, get_nearby_hospitals_ok dist hospitals a b r? m? em none hr1 hr2 hm1 hm2,
    ?_, ?_⟩
  · rw [get_nearby_hospitals_ok dist hospitals a b r? m? em (some "dog") hr1 hr2 hm1 hm2,
      filterMap_eq_filter_filterMap _ _ _ (fun h => scanHospital_pet_dog dist (a, b) _ _ em h)]
  · rw [get_nearby_hospitals_ok dist hospitals a b r? m? em (some "cat") hr1 hr2 hm1 hm2,
      filterMap_eq_filter_filterMap _ _ _ (fun h => scanHospital_pet_cat dist (a, b) _ _ em h)]

/-- Witness for C9 at a concrete valid criteria set. -/
theorem search_pet_type_specialty_filter_witness :
    (1 : ℚ) ≤ (none : Option ℚ).getD 50 ∧ (none : Option ℚ).getD 50 ≤ 100 ∧
    (1 : ℚ) ≤ (none : Option ℚ).getD 4 ∧ (none : Option ℚ).getD 4 ≤ 5 ∧
    ∃ base,
      get_nearby_hospitals (fun _ _ => 0)
          [⟨"A", 0, 0, 5, false, ["Canine"]⟩] (.tuple [.finite 0, .finite 0])
          none none none none = .ok base ∧
      get_nearby_hospitals (fun _ _ => 0)
          [⟨"A", 0, 0, 5, false, ["Canine"]⟩] (.tuple [.finite 0, .finite 0])
          none none none (some "dog") =
        .ok (base.filter (fun ann =>
          (ann.hospital.specialties.map String.toLower).contains "canine" ||
          (ann.hospital.specialties.map String.toLower).contains "general")) ∧
      get_nearby_hospitals (fun _ _ => 0)
          [⟨"A", 0, 0, 5, false, ["Canine"]⟩] (.tuple [.finite 0, .finite 0])
          none none none (some "cat") =
        .ok (base.filter (fun ann =>
          (ann.hospital.specialties.map String.toLower).contains "feline" ||
          (ann.hospital.specialties.map String.toLower).contains "general")) :=
  ⟨by decide, by decide, by decide, by decide,
    search_pet_type_specialty_filter (fun _ _ => 0)
      [⟨"A", 0, 0, 5, false, ["Canine"]⟩] (.finite 0) (.finite 0)
      none none none (by decide) (by decide) (by decide) (by decide)⟩

/-- **C1 (amended).** For every valid criteria (a search that succeeds),
`get_recommendations` returns the Python slice `sorted[:maxResults]` of the
sorted search result: with `maxResults > 0` it returns the first `maxResults`
entries of the sorted result, hence at most `maxResults` entries, and the full
sorted set when `maxResults` is at least the result size; `maxResults = 0`
yields an empty sequence (not an error); a negative `maxResults` does NOT
yield an empty sequence in general — it drops the last `|maxResults|` entries
(Python slice semantics).  The omitted `maxResults` defaults to 5. -/
theorem recommend_top_k
    (dist : PyFloat × PyFloat → ℚ × ℚ → ℚ) (hospitals : List Hospital)
    (loc : PyLoc) (r? m? : Option ℚ) (m : ℤ) (sort_by : String)
    (nearby : List AnnHospital)
    (h : get_nearby_hospitals dist hospitals loc r? m? none none = .ok nearby) :
    get_recommendations dist hospitals loc r? m? =
      get_recommendations dist hospitals loc r? m? 5 "distance" ∧
    ∃ res, get_recommendations dist hospitals loc r? m? m sort_by = .ok res ∧
      (let s := if sort_by = "rating" then sort_by_rating nearby
                else sort_by_distance nearby
       (0 < m → res = s.take m.toNat ∧ res.length ≤ m.toNat ∧
         (s.length ≤ m.toNat → res = s)) ∧
       (m = 0 → res = []) ∧
       (m < 0 → res = s.take (s.length - (-m).toNat))) := by
  refine ⟨rfl, pyTake (if sort_by = "rating" then sort_by_rating nearby
      else sort_by_distance nearby) m, by simp only [get_recommendations, h], ?_, ?_, ?_⟩
  · intro hm
    have hnn : ¬ m < 0 := by omega
    refine ⟨by rw [pyTake, if_neg hnn], ?_, ?_⟩
    · rw [pyTake, if_neg hnn]
      exact List.length_take_le _ _
    · intro hlen
      rw [pyTake, if_neg hnn]
      exact List.take_of_length_le hlen
  · intro hm
    subst hm
    rw [pyTake, if_neg (by omega)]
    rfl
  · intro hm
    rw [pyTake, if_pos hm]
    congr 1
    omega

/-- Witness for C1 at `maxResults = 3` on a one-hospital dataset. -/
theorem recommend_top_k_witness :
    get_nearby_hospitals (fun _ _ => 0) [⟨"A", 0, 0, 5, false, []⟩]
        (.tuple [.finite 0, .finite 0]) none none none none =
      .ok [⟨⟨"A", 0, 0, 5, false, []⟩, 0⟩] ∧
    (get_recommendations (fun _ _ => 0) [⟨"A", 0, 0, 5, false, []⟩]
        (.tuple [.finite 0, .finite 0]) none none =
      get_recommendations (fun _ _ => 0) [⟨"A", 0, 0, 5, false, []⟩]
        (.tuple [.finite 0, .finite 0]) none none 5 "distance" ∧
    ∃ res, get_recommendations (fun _ _ => 0) [⟨"A", 0, 0, 5, false, []⟩]
        (.tuple [.finite 0, .finite 0]) none none 3 "distance" = .ok res ∧
      (let s := if "distance" = "rating"
                then sort_by_rating [⟨⟨"A", 0, 0, 5, false, []⟩, 0⟩]
                else sort_by_distance [⟨⟨"A", 0, 0, 5, false, []⟩, 0⟩]
       ((0 : ℤ) < 3 → res = s.take (3 : ℤ).toNat ∧ res.length ≤ (3 : ℤ).toNat ∧
         (s.length ≤ (3 : ℤ).toNat → res = s)) ∧
       ((3 : ℤ) = 0 → res = []) ∧
       ((3 : ℤ) < 0 → res = s.take (s.length - (-(3 : ℤ)).toNat)))) :=
  ⟨rfl, recommend_top_k (fun _ _ => 0) [⟨"A", 0, 0, 5, false, []⟩]
    (.tuple [.finite 0, .finite 0]) none none 3 "distance"
    [⟨⟨"A", 0, 0, 5, false, []⟩, 0⟩] rfl⟩

/-- **C1 counterexample.** On a dataset where two hospitals match,
`get_recommendations` with `maxResults = -1` returns one entry — the Python
slice `sorted[:-1]` drops only the last element — and not the empty sequence
the claim requires for every `maxResults ≤ 0`. -/
theorem recommend_negative_max_results_not_empty :
    get_recommendations (fun _ _ => 0)
        [⟨"A", 0, 0, 5, false, []⟩, ⟨"B", 0, 0, 5, false, []⟩]
        (.tuple [.finite 0, .finite 0]) none none (-1) "distance" =
      .ok [⟨⟨"A", 0, 0, 5, false, []⟩, 0⟩] ∧
    (Except.ok [⟨⟨"A", 0, 0, 5, false, []⟩, 0⟩] :
      Except VetError (List AnnHospital)) ≠ .ok [] := by
  constructor
  · have hnear : get_nearby_hospitals (fun _ _ => 0)
        [⟨"A", 0, 0, 5, false, []⟩, ⟨"B", 0, 0, 5, false, []⟩]
        (.tuple [.finite 0, .finite 0]) none none none none =
      .ok [⟨⟨"A", 0, 0, 5, false, []⟩, 0⟩, ⟨⟨"B", 0, 0, 5, false, []⟩, 0⟩] := rfl
    have hsorted : sort_by_distance
        [⟨⟨"A", 0, 0, 5, false, []⟩, 0⟩, ⟨⟨"B", 0, 0, 5, false, []⟩, 0⟩] =
        [⟨⟨"A", 0, 0, 5, false, []⟩, 0⟩, ⟨⟨"B", 0, 0, 5, false, []⟩, 0⟩] :=
      List.mergeSort_of_sorted (by decide)
    simp only [get_recommendations, hnear, if_neg (by decide : ¬("distance" = "rating")),
      hsorted]
    rfl
  · simp

/-- **C4 (amended).** Construction eagerly loads the hospital collection and
holds it in memory; it fails with `FileNotFoundError` (the spec error
`DataSourceNotFound`) exactly when the data source does not exist.  (An
existing but unreadable source fails with a different error — see the
counterexample.) -/
theorem construction_loads_eagerly (src : DataSource) :
    (mkVetLocator src = .error .fileNotFoundError ↔ src = .absent) ∧
    (∀ hs, mkVetLocator (.present hs) = .ok ⟨hs.getD []⟩) := by
  constructor
  · cases src <;> simp [mkVetLocator, load_hospitals]
  · intro hs
    rfl

/-- **C4 counterexample.** An existing but unreadable data source makes
construction fail with `PermissionError`, not the `FileNotFoundError`
(`DataSourceNotFound`) the claim demands for an unreadable source. -/
theorem construction_unreadable_not_found_error :
    mkVetLocator .presentUnreadable = .error .permissionError ∧
    (Except.error LoadError.permissionError : Except LoadError VetLocator) ≠
      .error .fileNotFoundError :=
  ⟨rfl, by simp⟩

/-- **C5.** Emergency filter partition: with all other criteria fixed, the
searches with `is_emergency = true` and `is_emergency = false` return the two
cells of the partition of the unfiltered search result by the per-record
`is_emergency` flag: every unfiltered result appears in exactly one of the two
filtered results, the union of the two filtered results is the unfiltered
result, and they are disjoint. -/
theorem search_emergency_partition
    (dist : PyFloat × PyFloat → ℚ × ℚ → ℚ) (hospitals : List Hospital)
    (a b : PyFloat) (r? m? : Option ℚ) (pt : Option String)
    (hr1 : 1 ≤ r?.getD 50) (hr2 : r?.getD 50 ≤ 100)
    (hm1 : 1 ≤ m?.getD 4) (hm2 : m?.getD 4 ≤ 5) :
    ∃ base lt lf,
      get_nearby_hospitals dist hospitals (.tuple [a, b]) r? m? none pt = .ok base ∧
      get_nearby_hospitals dist hospitals (.tuple [a, b]) r? m? (some true) pt = .ok lt ∧
      get_nearby_hospitals dist hospitals (.tuple [a, b]) r? m? (some false) pt = .ok lf ∧
      lt = base.filter (fun ann => ann.hospital.is_emergency == true) ∧
      lf = base.filter (fun ann => ann.hospital.is_emergency == false) ∧
      (∀ x, x ∈ base ↔ x ∈ lt ∨ x ∈ lf) ∧
      (∀ x, x ∈ lt → x ∉ lf) := by
  refine ⟨hospitals.filterMap (scanHospital dist (a, b) (r?.getD 50) (m?.getD 4) none pt),
    _, _, get_nearby_hospitals_ok dist hospitals a b r? m? none pt hr1 hr2 hm1 hm2,
    ?_, ?_, rfl, rfl, ?_, ?_⟩
  · rw [get_nearby_hospitals_ok dist hospitals a b r? m? (some true) pt hr1 hr2 hm1 hm2,
      filterMap_eq_filter_filterMap _ _ _
        (fun h => scanHospital_emergency dist (a, b) _ _ true pt h)]
  · rw [get_nearby_hospitals_ok dist hospitals a b r? m? (some false) pt hr1 hr2 hm1 hm2,
      filterMap_eq_filter_filterMap _ _ _
        (fun h => scanHospital_emergency dist (a, b) _ _ false pt h)]
  · intro x
    constructor
    · intro hx
      cases he : x.hospital.is_emergency
      · exact Or.inr (List.mem_filter.mpr ⟨hx, by simp [he]⟩)
      · exact Or.inl (List.mem_filter.mpr ⟨hx, by simp [he]⟩)
    · rintro (hx | hx) <;> exact (List.mem_filter.mp hx).1
  · intro x hxt hxf
    have ht := (List.mem_filter.mp hxt).2
    have hf := (List.mem_filter.mp hxf).2
    simp at ht hf
    exact absurd (ht.symm.trans hf) (by decide)

/-- Witness for C5 at a concrete valid criteria set. -/
theorem search_emergency_partition_witness :
    (1 : ℚ) ≤ (some (10 : ℚ)).getD 50 ∧ (some (10 : ℚ)).getD 50 ≤ 100 ∧
    (1 : ℚ) ≤ (some (2 : ℚ)).getD 4 ∧ (some (2 : ℚ)).getD 4 ≤ 5 ∧
    ∃ base lt lf,
      get_nearby_hospitals (fun _ _ => 0)
          [⟨"A", 0, 0, 5, true, []⟩, ⟨"B", 0, 0, 5, false, []⟩]
          (.tuple [.finite 0, .finite 0]) (some 10) (some 2) none none = .ok base ∧
      get_nearby_hospitals (fun _ _ => 0)
          [⟨"A", 0, 0, 5, true, []⟩, ⟨"B", 0, 0, 5, false, []⟩]
          (.tuple [.finite 0, .finite 0]) (some 10) (some 2) (some true) none = .ok lt ∧
      get_nearby_hospitals (fun _ _ => 0)
          [⟨"A", 0, 0, 5, true, []⟩, ⟨"B", 0, 0, 5, false, []⟩]
          (.tuple [.finite 0, .finite 0]) (some 10) (some 2) (some false) none = .ok lf ∧
      lt = base.filter (fun ann => ann.hospital.is_emergency == true) ∧
      lf = base.filter (fun ann => ann.hospital.is_emergency == false) ∧
      (∀ x, x ∈ base ↔ x ∈ lt ∨ x ∈ lf) ∧
      (∀ x, x ∈ lt → x ∉ lf) :=
  ⟨by decide, by decide, by decide, by decide,
    search_emergency_partition (fun _ _ => 0)
      [⟨"A", 0, 0, 5, true, []⟩, ⟨"B", 0, 0, 5, false, []⟩]
      (.finite 0) (.finite 0) (some 10) (some 2) none
      (by decide) (by decide) (by decide) (by decide)⟩

/-- **C6.** Radius monotonicity: with the coordinate, rating threshold and the
other filters fixed, for valid radii `r1 < r2` in `[1, 100]` the result at
radius `r1` is a sublist of the result at radius `r2`, so its count is at most
the count at radius `r2`. -/
theorem search_radius_monotone
    (dist : PyFloat × PyFloat → ℚ × ℚ → ℚ) (hospitals : List Hospital)
    (a b : PyFloat) (r1 r2 : ℚ) (m? : Option ℚ)
    (em : Option Bool) (pt : Option String)
    (hr1 : 1 ≤ r1) (h12 : r1 < r2) (hr2 : r2 ≤ 100)
    (hm1 : 1 ≤ m?.getD 4) (hm2 : m?.getD 4 ≤ 5) :
    ∃ l1 l2,
      get_nearby_hospitals dist hospitals (.tuple [a, b]) (some r1) m? em pt = .ok l1 ∧
      get_nearby_hospitals dist hospitals (.tuple [a, b]) (some r2) m? em pt = .ok l2 ∧
      l1.Sublist l2 ∧ l1.length ≤ l2.length := by
  have sub : (hospitals.filterMap
        (scanHospital dist (a, b) r1 (m?.getD 4) em pt)).Sublist
      (hospitals.filterMap (scanHospital dist (a, b) r2 (m?.getD 4) em pt)) :=
    filterMap_sublist_of_imp _ _
      (fun h ann hs => scanHospital_radius_mono dist (a, b) r1 r2 _ h12.le em pt h ann hs)
      hospitals
  exact ⟨_, _,
    get_nearby_hospitals_ok dist hospitals a b (some r1) m? em pt hr1
      (h12.le.trans hr2) hm1 hm2,
    get_nearby_hospitals_ok dist hospitals a b (some r2) m? em pt (hr1.trans h12.le)
      hr2 hm1 hm2,
    sub, sub.length_le⟩

/-- Witness for C6 at concrete radii 10 < 20. -/
theorem search_radius_monotone_witness :
    (1 : ℚ) ≤ 10 ∧ (10 : ℚ) < 20 ∧ (20 : ℚ) ≤ 100 ∧
    (1 : ℚ) ≤ (none : Option ℚ).getD 4 ∧ (none : Option ℚ).getD 4 ≤ 5 ∧
    ∃ l1 l2,
      get_nearby_hospitals (fun _ _ => 15) [⟨"A", 0, 0, 5, false, []⟩]
        (.tuple [.finite 0, .finite 0]) (some 10) none none none = .ok l1 ∧
      get_nearby_hospitals (fun _ _ => 15) [⟨"A", 0, 0, 5, false, []⟩]
        (.tuple [.finite 0, .finite 0]) (some 20) none none none = .ok l2 ∧
      l1.Sublist l2 ∧ l1.length ≤ l2.length :=
  ⟨by decide, by decide, by decide, by decide, by decide,
    search_radius_monotone (fun _ _ => 15) [⟨"A", 0, 0, 5, false, []⟩]
      (.finite 0) (.finite 0) 10 20 none none none
      (by decide) (by decide) (by decide) (by decide) (by decide)⟩

/-! ### Sort correctness and stability -/

/-- Stability of a key-based merge sort, in filter form: the entries carrying
any fixed key value appear in the sorted output in their original input
order. -/
theorem mergeSort_filter_key {α β : Type _} [DecidableEq β] (key : α → β)
    (le : α → α → Bool)
    (hkey : ∀ x y, key x = key y → le x y = true)
    (trans : ∀ a b c, le a b = true → le b c = true → le a c = true)
    (total : ∀ a b, (le a b || le b a) = true)
    (l : List α) (d : β) :
    (l.mergeSort le).filter (fun x => decide (key x = d)) =
      l.filter (fun x => decide (key x = d)) := by
  set P : α → Bool := fun x => decide (key x = d) with hP
  have hmemkey : ∀ x ∈ l.filter P, key x = d := by
    intro x hx
    have := (List.mem_filter.mp hx).2
    rw [hP] at this
    simpa using this
  have hpair : (l.filter P).Pairwise (fun a b => le a b = true) :=
    List.pairwise_of_forall_mem_list
      (fun x hx y hy => hkey x y ((hmemkey x hx).trans (hmemkey y hy).symm))
  have h1 : (l.filter P).Sublist (l.mergeSort le) :=
    List.sublist_mergeSort trans total hpair (List.filter_sublist l)
  have hself : (l.filter P).filter P = l.filter P :=
    List.filter_eq_self.mpr (fun x hx => (List.mem_filter.mp hx).2)
  have h2 : (l.filter P).Sublist ((l.mergeSort le).filter P) := by
    have := h1.filter P
    rwa [hself] at this
  have h3 : ((l.mergeSort le).filter P).Perm (l.filter P) :=
    (List.mergeSort_perm l le).filter P
  exact (h2.eq_of_length h3.length_eq.symm).symm

/-- **C7.** `sort_by_distance` returns a permutation of its input that is
non-decreasing in `distance`, `sort_by_rating` returns a permutation that is
non-increasing in `rating`, and both sorts are stable: for every key value,
the entries carrying that key keep their original relative order (their
filtered subsequence is unchanged). -/
theorem sorts_ordered_and_stable (l : List AnnHospital) :
    (sort_by_distance l).Perm l ∧
    (sort_by_distance l).Pairwise (fun x y => x.distance ≤ y.distance) ∧
    (∀ d : ℚ, (sort_by_distance l).filter (fun x => decide (x.distance = d)) =
      l.filter (fun x => decide (x.distance = d))) ∧
    (sort_by_rating l).Perm l ∧
    (sort_by_rating l).Pairwise (fun x y => y.hospital.rating ≤ x.hospital.rating) ∧
    (∀ r : ℚ, (sort_by_rating l).filter (fun x => decide (x.hospital.rating = r)) =
      l.filter (fun x => decide (x.hospital.rating = r))) := by
  have dtrans : ∀ a b c : AnnHospital, decide (a.distance ≤ b.distance) = true →
      decide (b.distance ≤ c.distance) = true →
      decide (a.distance ≤ c.distance) = true := by
    intro a b c hab hbc
    simp only [decide_eq_true_eq] at hab hbc ⊢
    exact hab.trans hbc
  have dtotal : ∀ a b : AnnHospital,
      (decide (a.distance ≤ b.distance) || decide (b.distance ≤ a.distance)) = true := by
    intro a b
    simpa using le_total a.distance b.distance
  have rtrans : ∀ a b c : AnnHospital,
      decide (b.hospital.rating ≤ a.hospital.rating) = true →
      decide (c.hospital.rating ≤ b.hospital.rating) = true →
      decide (c.hospital.rating ≤ a.hospital.rating) = true := by
    intro a b c hab hbc
    simp only [decide_eq_true_eq] at hab hbc ⊢
    exact hbc.trans hab
  have rtotal : ∀ a b : AnnHospital,
      (decide (b.hospital.rating ≤ a.hospital.rating) ||
        decide (a.hospital.rating ≤ b.hospital.rating)) = true := by
    intro a b
    simpa using le_total b.hospital.rating a.hospital.rating
  refine ⟨List.mergeSort_perm l _, ?_, ?_, List.mergeSort_perm l _, ?_, ?_⟩
  · exact (List.sorted_mergeSort dtrans dtotal l).imp (fun h => by simpa using h)
  · intro d
    exact mergeSort_filter_key (fun x => x.distance) _
      (fun x y hxy => by simp [hxy]) dtrans dtotal l d
  · exact (List.sorted_mergeSort rtrans rtotal l).imp (fun h => by simpa using h)
  · intro r
    exact mergeSort_filter_key (fun x => x.hospital.rating) _
      (fun x y hxy => by simp [hxy]) rtrans rtotal l r

/-! ### Properties of the Haversine distance -/

theorem pyRound_zero : pyRound 0 = 0 := by
  rw [pyRound, if_neg (by norm_num [Int.fract_zero])]
  exact round_zero

theorem round2_zero : round2 0 = 0 := by
  rw [round2, zero_mul, pyRound_zero]
  norm_num

theorem pyRound_nonneg (x : ℝ) (hx : 0 ≤ x) : 0 ≤ pyRound x := by
  rw [pyRound]
  split_ifs with h1 h2
  · exact Int.floor_nonneg.mpr hx
  · have := Int.floor_nonneg.mpr hx
    omega
  · rw [round_eq]
    exact Int.floor_nonneg.mpr (by linarith)

theorem round2_nonneg (x : ℝ) (hx : 0 ≤ x) : 0 ≤ round2 x := by
  rw [round2]
  have h := pyRound_nonneg (x * 100) (by nlinarith)
  have : (0 : ℝ) ≤ (pyRound (x * 100) : ℝ) := by exact_mod_cast h
  linarith

theorem radians_neg (x : ℝ) : radians (-x) = -radians x := by
  rw [radians, radians]
  ring

/-- **C8.** `calculate_distance` is symmetric in its two coordinate arguments,
returns `0.0` on identical coordinates, and is always non-negative; it is a
total function of finite coordinate pairs (no error condition). -/
theorem calculate_distance_props :
    (∀ p q : ℝ × ℝ, calculate_distance p q = calculate_distance q p) ∧
    (∀ p : ℝ × ℝ, calculate_distance p p = 0) ∧
    (∀ p q : ℝ × ℝ, 0 ≤ calculate_distance p q) := by
  refine ⟨?_, ?_, ?_⟩
  · intro p q
    simp only [calculate_distance]
    have e1 : Real.sin (radians (p.1 - q.1) / 2) ^ 2 =
        Real.sin (radians (q.1 - p.1) / 2) ^ 2 := by
      rw [show p.1 - q.1 = -(q.1 - p.1) by ring, radians_neg, neg_div, Real.sin_neg,
        neg_sq]
    have e2 : Real.sin (radians (p.2 - q.2) / 2) ^ 2 =
        Real.sin (radians (q.2 - p.2) / 2) ^ 2 := by
      rw [show p.2 - q.2 = -(q.2 - p.2) by ring, radians_neg, neg_div, Real.sin_neg,
        neg_sq]
    rw [e1, e2, mul_comm (Real.cos (radians q.1)) (Real.cos (radians p.1))]
  · intro p
    simp only [calculate_distance, sub_self]
    rw [show radians 0 = 0 by rw [radians]; ring]
    simp [Real.arcsin_zero, round2_zero]
  · intro p q
    apply round2_nonneg
    have harc : 0 ≤ Real.arcsin (Real.sqrt
        (Real.sin (radians (q.1 - p.1) / 2) ^ 2 +
          Real.cos (radians p.1) * Real.cos (radians q.1) *
            Real.sin (radians (q.2 - p.2) / 2) ^ 2)) :=
      Real.arcsin_nonneg.mpr (Real.sqrt_nonneg _)
    have hE : (0 : ℝ) ≤ EARTH_RADIUS_KM := by rw [EARTH_RADIUS_KM]; norm_num
    exact mul_nonneg hE (by linarith)

end Petmate
